import Mathlib

/-!
Shallow embedding of `src/backend/main.py` (a FastAPI CRUD service with
Prometheus instrumentation and a Kubernetes test endpoint), together with
theorems settling the specification claims.

External collaborators (PostgreSQL, the Kubernetes API server, wall-clock
time) are modelled as explicit inputs: the database is a list of rows plus
SERIAL/NOW counters, connection and query availability are boolean inputs,
and the orchestrator call outcome is an input value.
-/

/-! ## String helpers mirroring Python primitives -/

/-- Python's `s.split("/")` on the character list of `s`: splits at every
`'/'`, keeping empty fields, so the result has (number of slashes + 1)
fields. -/
def splitSlash : List Char → List (List Char)
  | [] => [[]]
  | c :: cs =>
    if c = '/' then [] :: splitSlash cs
    else
      match splitSlash cs with
      | [] => [[c]]
      | g :: gs => (c :: g) :: gs

/-- Python's substring test `needle in hay`, as a Bool via decidable
`List.IsInfix` on the character lists. -/
def containsSub (needle hay : String) : Bool :=
  decide (needle.toList <:+: hay.toList)

/-! ## Prometheus middleware (`PrometheusMiddleware.dispatch`, main.py 54-97) -/

/-- Route-template normalization from `dispatch` (main.py 59-62): if the
path contains the substring `"/api/items/"` and splitting on `"/"` yields
exactly 4 fields, the label is `"/api/items/{id}"`; otherwise the literal
path. -/
def normalizeRoute (path : String) : String :=
  if containsSub "/api/items/" path && (splitSlash path.toList).length == 4 then
    "/api/items/{id}"
  else
    path

/-- Process-wide metric registers: in-flight gauge keyed by route, request
counter keyed by (method, route, status), and the number of duration
observations keyed by (method, route).  Durations themselves are wall-clock
time, kept abstract. -/
structure Metrics where
  inflight : String → Int
  totalReq : String → String → Nat → Nat
  durObs : String → String → Nat

/-- The gauge `.labels(route=route).inc()` step (main.py 68). -/
def incInflight (m : Metrics) (r : String) : Metrics :=
  { m with inflight := fun x => if x = r then m.inflight x + 1 else m.inflight x }

/-- The gauge `.labels(route=route).dec()` step (main.py 85). -/
def decInflight (m : Metrics) (r : String) : Metrics :=
  { m with inflight := fun x => if x = r then m.inflight x - 1 else m.inflight x }

/-- The counter `http_requests_total.labels(...).inc()` step (main.py 88-92). -/
def incTotal (m : Metrics) (method route : String) (status : Nat) : Metrics :=
  { m with totalReq := fun mt rt st =>
      if mt = method ∧ rt = route ∧ st = status then m.totalReq mt rt st + 1
      else m.totalReq mt rt st }

/-- The histogram `.observe(duration)` step (main.py 94-97), counted. -/
def observeDur (m : Metrics) (method route : String) : Metrics :=
  { m with durObs := fun mt rt =>
      if mt = method ∧ rt = route then m.durObs mt rt + 1 else m.durObs mt rt }

/-- Outcome of `call_next(request)` inside the middleware: either a response
with a status code, or a raised exception. -/
inductive DispatchOutcome where
  | ok (status : Nat)
  | raised
deriving DecidableEq, Repr

/-- Status recorded by the `finally` block: the response status on success,
500 when `call_next` raised (main.py 71, 75, 78). -/
def recordedStatus : DispatchOutcome → Nat
  | .ok s => s
  | .raised => 500

/-- The middleware `dispatch` (main.py 57-97): increments the in-flight
gauge for the normalized route, runs the inner handler, and in `finally`
decrements the gauge, bumps the request counter with the recorded status,
and observes one duration sample.  A raised exception is re-raised
(`Except.error ()`); a response is returned with its status. -/
def dispatch (m : Metrics) (method path : String) (out : DispatchOutcome) :
    Metrics × Except Unit Nat :=
  let route := normalizeRoute path
  let m1 := incInflight m route
  let res : Except Unit Nat :=
    match out with
    | .ok s => .ok s
    | .raised => .error ()
  let m2 := decInflight m1 route
  let m3 := incTotal m2 method route (recordedStatus out)
  let m4 := observeDur m3 method route
  (m4, res)

/-! ## Environment dump (`get_env_vars`, main.py 233-250) -/

/-- Sensitive keyword list from main.py 240. -/
def sensitive_keywords : List String :=
  ["USER", "PASSWORD", "SECRET", "KEY", "TOKEN", "CREDENTIAL", "AUTH", "SHA256", "HASH"]

/-- The test `any(keyword in key.upper() for keyword in sensitive_keywords)`
(main.py 245). -/
def isSensitiveKey (k : String) : Bool :=
  sensitive_keywords.any (fun kw => containsSub kw k.toUpper)

/-- The `/api/env` handler body (main.py 242-250): every variable with a
sensitive key is mapped to the mask `"***"`, every other variable to its
raw value. -/
def get_env_vars (env : List (String × String)) : List (String × String) :=
  env.map (fun kv => if isSensitiveKey kv.1 then (kv.1, "***") else kv)

/-! ## Database model

The PostgreSQL store behind `get_db_connection` is modelled as explicit
state: the `items` table is a list of rows in insertion order, with the
SERIAL id counter and a NOW() clock that strictly increases between
inserts.  Whether a connection can be established (`connOk`) is an input
to each handler, matching the per-request `get_db_connection()` call. -/

/-- One row of the `items` table (main.py 125-131): `id SERIAL`, `title
TEXT NOT NULL`, `created_at TIMESTAMPTZ DEFAULT NOW()`; `created_at` is
nullable at the SQL level, hence `Option`. -/
structure Row where
  id : Nat
  title : String
  created_at : Option Nat
deriving DecidableEq, Repr

/-- The store state: rows in insertion order, the next SERIAL id, and the
next NOW() timestamp. -/
structure DBState where
  rows : List Row
  nextId : Nat
  nextTs : Nat
deriving DecidableEq, Repr

/-- The store of a fresh database: empty table, SERIAL starting at 1. -/
def db0 : DBState := { rows := [], nextId := 1, nextTs := 0 }

/-- Timestamp rendering `row[2].isoformat()`: the decimal rendering of the
abstract timestamp stands in for the external `datetime.isoformat`. -/
def isoformat (t : Nat) : String := toString t

/-- Serialization of a fetched row into the `Item` response model, shared
verbatim by the four item handlers (main.py 269-276, 301-305, 332-336,
364-368): `created_at=row[2].isoformat() if row[2] else ""`. -/
structure Item where
  id : Nat
  title : String
  created_at : String
deriving DecidableEq, Repr

/-- Row-to-response serialization used at each handler's return site. -/
def rowToItem (r : Row) : Item :=
  { id := r.id, title := r.title,
    created_at :=
      match r.created_at with
      | some t => isoformat t
      | none => "" }

/-- An HTTPException: status code and detail string. -/
structure HErr where
  status : Nat
  detail : String
deriving DecidableEq, Repr

/-- The SQL `ORDER BY created_at DESC` comparison on the nullable column:
PostgreSQL sorts descending with NULLs first (NULL ranks above every
value). -/
def tsGe : Option Nat → Option Nat → Bool
  | none, _ => true
  | some _, none => false
  | some a, some b => b ≤ a

/-- Row comparison for `ORDER BY created_at DESC`. -/
def rowGe (a b : Row) : Prop := tsGe a.created_at b.created_at = true

instance : DecidableRel rowGe := fun a b => by
  unfold rowGe; infer_instance

instance : IsTotal Row rowGe where
  total a b := by
    unfold rowGe tsGe
    cases a.created_at <;> cases b.created_at <;> simp <;> omega

instance : IsTrans Row rowGe where
  trans a b c := by
    unfold rowGe tsGe
    cases a.created_at <;> cases b.created_at <;> cases c.created_at <;> simp <;> omega

/-- Result rows of `SELECT ... ORDER BY created_at DESC` (main.py 264). -/
def orderByCreatedDesc (l : List Row) : List Row :=
  List.insertionSort rowGe l

/-- `cur.fetchone()` after `SELECT ... WHERE id = %s`: the first row whose
id matches. -/
def findRow (rows : List Row) (i : Nat) : Option Row :=
  rows.find? (fun r => r.id == i)

/-! ## CRUD handlers (main.py 255-401) -/

/-- The `GET /api/items` handler (main.py 255-281): 503 when no connection,
otherwise 200 with the rows ordered by `created_at DESC`, serialized. -/
def get_items (connOk : Bool) (db : DBState) : Except HErr (Nat × List Item) :=
  if connOk then
    .ok (200, (orderByCreatedDesc db.rows).map rowToItem)
  else
    .error { status := 503, detail := "Database not available" }

/-- The `GET /api/items/{item_id}` handler (main.py 284-311): 503 when no
connection, 404 when no row matches, otherwise 200 with the row. -/
def get_item (connOk : Bool) (db : DBState) (item_id : Nat) : Except HErr (Nat × Item) :=
  if connOk then
    match findRow db.rows item_id with
    | none => .error { status := 404, detail := "Item not found" }
    | some r => .ok (200, rowToItem r)
  else
    .error { status := 503, detail := "Database not available" }

/-- State effect of `INSERT INTO items (title) VALUES (%s)`: the store
appends a row with the next SERIAL id and the NOW() timestamp. -/
def insertRow (db : DBState) (title : String) : DBState :=
  { rows := db.rows ++ [{ id := db.nextId, title := title, created_at := some db.nextTs }],
    nextId := db.nextId + 1,
    nextTs := db.nextTs + 1 }

/-- The `POST /api/items` handler (main.py 314-340): 503 when no
connection, otherwise 201 with the RETURNING row serialized.  The request
model `ItemCreate` (main.py 171-172) requires `title` to be a string and
nothing more. -/
def create_item (connOk : Bool) (db : DBState) (title : String) :
    Except HErr (Nat × DBState × Item) :=
  if connOk then
    .ok (201, insertRow db title,
         rowToItem { id := db.nextId, title := title, created_at := some db.nextTs })
  else
    .error { status := 503, detail := "Database not available" }

/-- The `PUT /api/items/{item_id}` handler (main.py 343-374): 503 when no
connection; `UPDATE ... WHERE id = %s RETURNING ...` rewrites the title of
every matching row; `fetchone()` returning no row yields 404, otherwise
200 with the updated row. -/
def update_item (connOk : Bool) (db : DBState) (item_id : Nat) (title : String) :
    Except HErr (Nat × DBState × Item) :=
  if connOk then
    let rows' := db.rows.map (fun r => if r.id == item_id then { r with title := title } else r)
    match findRow rows' item_id with
    | none => .error { status := 404, detail := "Item not found" }
    | some r => .ok (200, { db with rows := rows' }, rowToItem r)
  else
    .error { status := 503, detail := "Database not available" }

/-- The `DELETE /api/items/{item_id}` handler (main.py 377-401): 503 when
no connection; `DELETE ... WHERE id = %s` removes every matching row; a
`rowcount` of 0 yields 404, otherwise 204 with an empty body. -/
def delete_item (connOk : Bool) (db : DBState) (item_id : Nat) :
    Except HErr (Nat × DBState) :=
  if connOk then
    let rows' := db.rows.filter (fun r => !(r.id == item_id))
    let deleted := db.rows.countP (fun r => r.id == item_id)
    if deleted == 0 then
      .error { status := 404, detail := "Item not found" }
    else
      .ok (204, { db with rows := rows' })
  else
    .error { status := 503, detail := "Database not available" }

/-! ## System endpoints (main.py 190-212) -/

/-- The `GET /health` handler (main.py 190-193): reads nothing and always
answers 200 with `{"status": "healthy", "service": APP_NAME}`. -/
def health (appName : String) : Except HErr (Nat × String × String) :=
  .ok (200, "healthy", appName)

/-- The `GET /ready` handler (main.py 196-212): 503 when no connection can
be established, then `SELECT 1` is run; a query failure yields 503 and
success yields 200. -/
def ready (connOk queryOk : Bool) (appName : String) : Except HErr (Nat × String × String) :=
  if connOk then
    if queryOk then
      .ok (200, "ready", appName)
    else
      .error { status := 503, detail := "Database check failed" }
  else
    .error { status := 503, detail := "Database not available" }

/-! ## Kubernetes test endpoint (main.py 431-522) -/

/-- Which credential provider produced the client: the in-cluster
ServiceAccount identity or the local kubeconfig fallback. -/
inductive K8sClientSrc where
  | incluster
  | kubeconfig
deriving DecidableEq, Repr

/-- The `get_k8s_client` resolution (main.py 431-442): try
`load_incluster_config()` first, fall back to `load_kube_config()`, return
`None` when both fail.  Whether each provider succeeds is an input. -/
def get_k8s_client (inclusterOk kubeconfigOk : Bool) : Option K8sClientSrc :=
  if inclusterOk then some .incluster
  else if kubeconfigOk then some .kubeconfig
  else none

/-- The pod manifest fields fixed by main.py 458-493. -/
structure PodManifest where
  name : String
  namespc : String
  image : String
  command : List String
  restartPolicy : String
deriving DecidableEq, Repr

/-- The manifest built for a given `int(time.time())` value (main.py
458-493): name `test-pod-<unix-seconds>`, namespace `todolist`, busybox
image, sleep command, `restartPolicy: Never`. -/
def podManifest (now : Nat) : PodManifest :=
  { name := "test-pod-" ++ toString now,
    namespc := "todolist",
    image := "busybox:latest",
    command := ["sleep", "3600"],
    restartPolicy := "Never" }

/-- Outcome of the external `create_namespaced_pod` call: success with the
assigned uid, an `ApiException` carrying a status, or any other
exception. -/
inductive CreatePodOutcome where
  | success (uid : String)
  | apiError (st : Nat) (reason body : String)
  | otherError (msg : String)
deriving DecidableEq, Repr

/-- Success body of `POST /api/test-pod` (main.py 501-507). -/
structure PodResponse where
  pod_name : String
  namespc : String
  pod_uid : String
deriving DecidableEq, Repr

/-- The `POST /api/test-pod` handler (main.py 445-522): 503 when no client
resolves; on success 200 with the pod's name, namespace and uid; an
`ApiException` with status 403 yields 403, any other `ApiException` yields
500, and any other exception yields 500. -/
def create_test_pod (inclusterOk kubeconfigOk : Bool) (now : Nat)
    (out : CreatePodOutcome) : Except HErr (Nat × PodResponse) :=
  match get_k8s_client inclusterOk kubeconfigOk with
  | none =>
    .error { status := 503,
             detail := "Kubernetes client not available. Make sure the pod has proper ServiceAccount permissions." }
  | some _ =>
    match out with
    | .success uid =>
      .ok (200, { pod_name := (podManifest now).name,
                  namespc := (podManifest now).namespc,
                  pod_uid := uid })
    | .apiError st reason body =>
      if st == 403 then
        .error { status := 403,
                 detail := "Permission denied. ServiceAccount needs pod create permission in namespace todolist. Check Role and RoleBinding." }
      else
        .error { status := 500, detail := "Error creating pod: " ++ reason ++ " - " ++ body }
    | .otherError msg =>
      .error { status := 500, detail := "Unexpected error: " ++ msg }

/-! ## Request-sequence helpers -/

/-- Store state after a sequence of successful inserts (the state part of
`create_item` applied once per title). -/
def applyInserts (db : DBState) : List String → DBState
  | [] => db
  | t :: ts => applyInserts (insertRow db t) ts

/-! ## Helper lemmas -/

theorem toDigitsCore_length_le (b : Nat) :
    ∀ (f n : Nat) (ds : List Char), ds.length ≤ (Nat.toDigitsCore b f n ds).length := by
  intro f
  induction f with
  | zero => intro n ds; simp [Nat.toDigitsCore]
  | succ f ih =>
    intro n ds
    simp only [Nat.toDigitsCore]
    split
    · simp
    · exact le_trans (by simp) (ih _ _)

theorem toDigits_ne_empty (n : Nat) : Nat.toDigits 10 n ≠ [] := by
  have h : 1 ≤ (Nat.toDigits 10 n).length := by
    simp only [Nat.toDigits, Nat.toDigitsCore]
    split
    · simp
    · exact le_trans (by simp) (toDigitsCore_length_le 10 _ _ _)
  intro hc
  rw [hc] at h
  simp at h

theorem natToString_ne_empty (n : Nat) : toString n ≠ "" := by
  show (Nat.toDigits 10 n).asString ≠ ""
  intro hc
  apply toDigits_ne_empty n
  have h : ((Nat.toDigits 10 n).asString).data = ("" : String).data := by rw [hc]
  simpa [List.asString] using h

theorem isoformat_ne_empty (t : Nat) : isoformat t ≠ "" :=
  natToString_ne_empty t

theorem splitSlash_ne_nil : ∀ l : List Char, splitSlash l ≠ []
  | [] => by simp [splitSlash]
  | c :: cs => by
    by_cases h : c = '/'
    · simp [splitSlash, h]
    · simp only [splitSlash, if_neg h]
      cases hsp : splitSlash cs with
      | nil => simp
      | cons g gs => simp

theorem splitSlash_length : ∀ l : List Char, (splitSlash l).length = l.count '/' + 1
  | [] => by simp [splitSlash]
  | c :: cs => by
    by_cases h : c = '/'
    · simp [splitSlash, h, splitSlash_length cs, List.count_cons]
    · cases hsp : splitSlash cs with
      | nil => exact absurd hsp (splitSlash_ne_nil cs)
      | cons g gs =>
        have hlen := splitSlash_length cs
        rw [hsp] at hlen
        simp only [splitSlash, if_neg h, hsp, List.length_cons, List.count_cons]
        simp only [List.length_cons] at hlen
        have hc : (c == '/') = false := by simp [h]
        simp only [hc, Bool.false_eq_true, if_false]
        omega

theorem containsSub_iff (n h : String) :
    containsSub n h = true ↔ n.toList <:+: h.toList := by
  simp [containsSub]

theorem orderedInsert_append (a : Row) :
    ∀ l : List Row, (∀ b ∈ l, ¬ rowGe a b) → List.orderedInsert rowGe a l = l ++ [a]
  | [], _ => rfl
  | b :: l, h => by
    have hb : ¬ rowGe a b := h b (by simp)
    simp only [List.orderedInsert, if_neg hb, List.cons_append, List.cons.injEq, true_and]
    exact orderedInsert_append a l (fun x hx => h x (by simp [hx]))

theorem sort_of_ascending :
    ∀ l : List Row, List.Pairwise (fun x y => ¬ rowGe x y) l →
      orderByCreatedDesc l = l.reverse
  | [], _ => rfl
  | a :: l, h => by
    have ih := sort_of_ascending l h.of_cons
    show List.orderedInsert rowGe a (List.insertionSort rowGe l) = (a :: l).reverse
    rw [show List.insertionSort rowGe l = orderByCreatedDesc l from rfl, ih]
    rw [orderedInsert_append a l.reverse
      (fun b hb => List.rel_of_pairwise_cons h (List.mem_reverse.mp hb))]
    simp

/-! ## Claim theorems -/

/-- Claim C1, counterexample: the claim says a POST /api/items request
succeeds with 201 only when the supplied title is non-empty, but
`ItemCreate` (main.py 171-172) only requires `title` to be a string, so the
empty title is accepted: with the store reachable and fresh, creating with
title `""` succeeds with status 201 and a created item whose title is
empty. -/
theorem c1_empty_title_accepted :
    create_item true db0 "" =
      .ok (201,
           { rows := [{ id := 1, title := "", created_at := some 0 }], nextId := 2, nextTs := 1 },
           { id := 1, title := "", created_at := isoformat 0 }) := by
  rfl

/-- Claim C1, amended: the create-item operation requires a title of string
type but does not require it to be non-empty: for every supplied string
title, including the empty string, the request succeeds with status 201 and
the created item carries exactly the supplied title (and the request fails
with 503 when the store is unreachable). -/
theorem c1_create_accepts_any_title (db : DBState) (title : String) :
    create_item true db title =
      .ok (201, insertRow db title,
           rowToItem { id := db.nextId, title := title, created_at := some db.nextTs }) ∧
    (rowToItem { id := db.nextId, title := title, created_at := some db.nextTs }).title = title ∧
    create_item false db title = .error { status := 503, detail := "Database not available" } :=
  ⟨rfl, rfl, rfl⟩

/-- Claim C2: the GET /api/env response maps each environment variable
whose key case-insensitively contains one of the sensitive keywords to the
fixed mask `"***"`, maps every other variable to its raw value, and never
maps a sensitive-keyed variable to anything but the mask. -/
theorem c2_env_masking (env : List (String × String)) (k v : String)
    (hmem : (k, v) ∈ env) :
    (isSensitiveKey k = true → (k, "***") ∈ get_env_vars env) ∧
    (isSensitiveKey k = false → (k, v) ∈ get_env_vars env) ∧
    (∀ k' v', (k', v') ∈ get_env_vars env → isSensitiveKey k' = true → v' = "***") := by
  refine ⟨?_, ?_, ?_⟩
  · intro hs
    have h := List.mem_map_of_mem
      (fun kv : String × String => if isSensitiveKey kv.1 then (kv.1, "***") else kv) hmem
    simpa [get_env_vars, hs] using h
  · intro hs
    have h := List.mem_map_of_mem
      (fun kv : String × String => if isSensitiveKey kv.1 then (kv.1, "***") else kv) hmem
    simpa [get_env_vars, hs] using h
  · intro k' v' hmem' hs
    simp only [get_env_vars, List.mem_map] at hmem'
    obtain ⟨⟨a, b⟩, hab, heq⟩ := hmem'
    by_cases h : isSensitiveKey a = true
    · rw [if_pos h] at heq
      cases heq
      rfl
    · rw [if_neg h] at heq
      cases heq
      exact absurd hs h

/-- Claim C2 witness at a concrete environment containing a sensitive key. -/
theorem c2_env_masking_witness :
    (isSensitiveKey "DB_PASSWORD" = true →
      ("DB_PASSWORD", "***") ∈ get_env_vars [("DB_PASSWORD", "postgres"), ("PATH", "/usr/bin")]) ∧
    (isSensitiveKey "DB_PASSWORD" = false →
      ("DB_PASSWORD", "postgres") ∈ get_env_vars [("DB_PASSWORD", "postgres"), ("PATH", "/usr/bin")]) ∧
    (∀ k' v', (k', v') ∈ get_env_vars [("DB_PASSWORD", "postgres"), ("PATH", "/usr/bin")] →
      isSensitiveKey k' = true → v' = "***") :=
  c2_env_masking [("DB_PASSWORD", "postgres"), ("PATH", "/usr/bin")] "DB_PASSWORD" "postgres"
    (by simp)

/-- Claim C3: GET /health answers 200 unconditionally and without touching
the store (its model reads no store input), while GET /ready answers 200
exactly when the connection succeeds and the trivial query succeeds, and
503 in the other three combinations. -/
theorem c3_probes (appName : String) :
    health appName = .ok (200, "healthy", appName) ∧
    ready true true appName = .ok (200, "ready", appName) ∧
    ready false true appName = .error { status := 503, detail := "Database not available" } ∧
    ready false false appName = .error { status := 503, detail := "Database not available" } ∧
    ready true false appName = .error { status := 503, detail := "Database check failed" } :=
  ⟨rfl, rfl, rfl, rfl, rfl⟩

/-- Claim C4: for every request path (inbound paths begin with a slash),
the metric route label is the literal path unless the path has the form
`/api/items/<value>` with `<value>` free of slashes, in which case it is
the template `/api/items/{id}`; in particular `/api/items/1` and
`/api/items/2` share the label `/api/items/{id}`. -/
theorem c4_route_normalization (path : String)
    (hhead : path.toList.head? = some '/') :
    ((∀ v : List Char, '/' ∉ v → path.toList ≠ "/api/items/".toList ++ v) →
        normalizeRoute path = path) ∧
    (∀ v : List Char, '/' ∉ v → path.toList = "/api/items/".toList ++ v →
        normalizeRoute path = "/api/items/{id}") ∧
    normalizeRoute "/api/items/1" = "/api/items/{id}" ∧
    normalizeRoute "/api/items/2" = "/api/items/{id}" := by
  have hneedle : ("/api/items/".toList).count '/' = 3 := by decide
  refine ⟨?_, ?_, by decide, by decide⟩
  · intro h
    unfold normalizeRoute
    split
    · next hcond =>
      exfalso
      rw [Bool.and_eq_true] at hcond
      obtain ⟨hinf, hlen⟩ := hcond
      rw [containsSub_iff] at hinf
      obtain ⟨s, t, hst⟩ := hinf
      have hlen4 : (splitSlash path.toList).length = 4 := by
        simpa using hlen
      have hcount : path.toList.count '/' = 3 := by
        have hsl := splitSlash_length path.toList
        omega
      rw [← hst] at hcount
      simp only [List.count_append] at hcount
      have hs0 : s.count '/' = 0 := by
        rw [hneedle] at hcount
        omega
      have ht0 : t.count '/' = 0 := by
        rw [hneedle] at hcount
        omega
      have hsnil : s = [] := by
        cases s with
        | nil => rfl
        | cons c s' =>
          rw [← hst] at hhead
          simp only [List.cons_append, List.head?_cons, Option.some.injEq] at hhead
          rw [List.count_cons] at hs0
          simp [← hhead] at hs0
          exact absurd hhead hs0.2
      apply h t (List.count_eq_zero.mp ht0)
      rw [← hst, hsnil]
      simp
    · rfl
  · intro v hv hdec
    have hcond : (containsSub "/api/items/" path &&
        ((splitSlash path.toList).length == 4)) = true := by
      rw [Bool.and_eq_true]
      constructor
      · rw [containsSub_iff, hdec]
        exact ⟨[], v, by simp⟩
      · have hsl := splitSlash_length path.toList
        have hcnt : path.toList.count '/' = 3 := by
          rw [hdec]
          simp [List.count_append, List.count_eq_zero.mpr hv, hneedle]
        have h4 : (splitSlash path.toList).length = 4 := by rw [hsl, hcnt]
        simpa using h4
    unfold normalizeRoute
    rw [hcond]
    rfl

/-- Claim C4 witness at the concrete path `/api/items/1`. -/
theorem c4_route_normalization_witness :
    ((∀ v : List Char, '/' ∉ v → ("/api/items/1").toList ≠ "/api/items/".toList ++ v) →
        normalizeRoute "/api/items/1" = "/api/items/1") ∧
    (∀ v : List Char, '/' ∉ v → ("/api/items/1").toList = "/api/items/".toList ++ v →
        normalizeRoute "/api/items/1" = "/api/items/{id}") ∧
    normalizeRoute "/api/items/1" = "/api/items/{id}" ∧
    normalizeRoute "/api/items/2" = "/api/items/{id}" :=
  c4_route_normalization "/api/items/1" (by decide)

/-- Claim C5: for every request and every dispatch outcome (response or
raised exception), the middleware increments the in-flight gauge of the
normalized route by one before dispatch, leaves the gauge with a net
change of zero once finished, bumps the total-request counter exactly once
at the label (method, normalized route, recorded status) and nowhere else,
records exactly one duration observation at (method, normalized route),
records status 500 for a raised exception, and re-raises the exception
while returning a response's status unchanged. -/
theorem c5_middleware_metrics (m : Metrics) (method path : String) (out : DispatchOutcome) :
    (incInflight m (normalizeRoute path)).inflight (normalizeRoute path) =
        m.inflight (normalizeRoute path) + 1 ∧
    (∀ r, (dispatch m method path out).1.inflight r = m.inflight r) ∧
    (∀ mt rt st, (dispatch m method path out).1.totalReq mt rt st =
        m.totalReq mt rt st +
          (if mt = method ∧ rt = normalizeRoute path ∧ st = recordedStatus out then 1 else 0)) ∧
    (∀ mt rt, (dispatch m method path out).1.durObs mt rt =
        m.durObs mt rt + (if mt = method ∧ rt = normalizeRoute path then 1 else 0)) ∧
    recordedStatus .raised = 500 ∧
    (dispatch m method path out).2 =
      (match out with
       | .ok s => Except.ok s
       | .raised => Except.error ()) := by
  refine ⟨by simp [incInflight], ?_, ?_, ?_, rfl, rfl⟩
  · intro r
    by_cases hr : r = normalizeRoute path <;>
      simp [dispatch, incInflight, decInflight, incTotal, observeDur, hr]
  · intro mt rt st
    by_cases hc : mt = method ∧ rt = normalizeRoute path ∧ st = recordedStatus out <;>
      simp [dispatch, incInflight, decInflight, incTotal, observeDur, hc]
  · intro mt rt
    by_cases hc : mt = method ∧ rt = normalizeRoute path <;>
      simp [dispatch, incInflight, decInflight, incTotal, observeDur, hc]

/-- Claim C6: updating or deleting an id with no matching record answers
404; deleting a matching id answers 204 and removes exactly the rows with
that id, so a second delete of the same id answers 404. -/
theorem c6_update_delete (db : DBState) (i : Nat) (title : String) :
    ((∀ r ∈ db.rows, r.id ≠ i) →
        update_item true db i title = .error { status := 404, detail := "Item not found" } ∧
        delete_item true db i = .error { status := 404, detail := "Item not found" }) ∧
    (∀ r ∈ db.rows, r.id = i →
        ∃ db', delete_item true db i = .ok (204, db') ∧
          db'.rows = db.rows.filter (fun x => !(x.id == i)) ∧
          delete_item true db' i = .error { status := 404, detail := "Item not found" }) := by
  have hupd : update_item true db i title =
      (match findRow (db.rows.map
          (fun r => if r.id == i then { r with title := title } else r)) i with
       | none => Except.error { status := 404, detail := "Item not found" }
       | some r =>
         Except.ok
           (200,
            { db with
              rows := db.rows.map (fun r => if r.id == i then { r with title := title } else r) },
            rowToItem r)) := rfl
  have hdel : ∀ d : DBState, delete_item true d i =
      (if (d.rows.countP (fun r => r.id == i)) == 0 then
        Except.error { status := 404, detail := "Item not found" }
       else
        Except.ok (204, { d with rows := d.rows.filter (fun r => !(r.id == i)) })) :=
    fun d => rfl
  constructor
  · intro habs
    constructor
    · have hfind : findRow (db.rows.map
          (fun r => if r.id == i then { r with title := title } else r)) i = none := by
        rw [findRow, List.find?_eq_none]
        intro x hx
        rw [List.mem_map] at hx
        obtain ⟨r, hr, rfl⟩ := hx
        have hid : r.id ≠ i := habs r hr
        simp [hid]
      rw [hupd, hfind]
    · have hcnt : db.rows.countP (fun r => r.id == i) = 0 := by
        rw [List.countP_eq_zero]
        intro r hr
        simp [habs r hr]
      rw [hdel db, hcnt]
      rfl
  · intro r hr hid
    have hcnt : (db.rows.countP (fun x => x.id == i) == 0) = false := by
      have hpos : 0 < db.rows.countP (fun x => x.id == i) := by
        rw [List.countP_pos_iff]
        exact ⟨r, hr, by simp [hid]⟩
      simp only [beq_eq_false_iff_ne, ne_eq]
      omega
    refine ⟨{ db with rows := db.rows.filter (fun x => !(x.id == i)) }, ?_, rfl, ?_⟩
    · rw [hdel db]
      simp only [hcnt, Bool.false_eq_true, if_false]
    · have hcnt2 : ((db.rows.filter (fun x => !(x.id == i))).countP
          (fun x => x.id == i) == 0) = true := by
        simp only [beq_iff_eq, List.countP_eq_zero]
        intro x hx
        rw [List.mem_filter] at hx
        simpa using hx.2
      rw [hdel { db with rows := db.rows.filter (fun x => !(x.id == i)) }]
      simp only [hcnt2, if_true]

/-- Claim C6 witness: on the empty store both update and delete answer
404; on a one-row store delete answers 204, removes the row, and a second
delete answers 404. -/
theorem c6_update_delete_witness :
    (update_item true db0 1 "x" = .error { status := 404, detail := "Item not found" } ∧
     delete_item true db0 1 = .error { status := 404, detail := "Item not found" }) ∧
    (∃ db', delete_item true
          { rows := [{ id := 1, title := "a", created_at := some 0 }], nextId := 2, nextTs := 1 }
          1 = .ok (204, db') ∧
      db'.rows = [{ id := 1, title := "a", created_at := some 0 }].filter
          (fun x => !(x.id == 1)) ∧
      delete_item true db' 1 = .error { status := 404, detail := "Item not found" }) :=
  ⟨(c6_update_delete db0 1 "x").1 (by simp [db0]),
   (c6_update_delete
      { rows := [{ id := 1, title := "a", created_at := some 0 }], nextId := 2, nextTs := 1 }
      1 "x").2 { id := 1, title := "a", created_at := some 0 } (by simp) rfl⟩

/-- Titles accumulate in insertion order across a sequence of inserts. -/
theorem applyInserts_titles : ∀ (ts : List String) (db : DBState),
    (applyInserts db ts).rows.map Row.title = db.rows.map Row.title ++ ts
  | [], db => by simp [applyInserts]
  | t :: ts, db => by
    rw [applyInserts, applyInserts_titles ts (insertRow db t)]
    simp [insertRow]

/-- Across a sequence of inserts, every row keeps a timestamp strictly
below the clock and the table stays strictly ascending in creation time. -/
theorem applyInserts_asc : ∀ (ts : List String) (db : DBState),
    (∀ r ∈ db.rows, ∃ x, r.created_at = some x ∧ x < db.nextTs) →
    List.Pairwise (fun a b => ¬ rowGe a b) db.rows →
    (∀ r ∈ (applyInserts db ts).rows,
        ∃ x, r.created_at = some x ∧ x < (applyInserts db ts).nextTs) ∧
      List.Pairwise (fun a b => ¬ rowGe a b) (applyInserts db ts).rows
  | [], _, hb, hp => ⟨hb, hp⟩
  | t :: ts, db, hb, hp => by
    rw [applyInserts]
    apply applyInserts_asc ts (insertRow db t)
    · intro r hr
      simp only [insertRow, List.mem_append, List.mem_singleton] at hr
      cases hr with
      | inl hold =>
        obtain ⟨x, hx, hlt⟩ := hb r hold
        exact ⟨x, hx, by simp [insertRow]; omega⟩
      | inr hnew =>
        refine ⟨db.nextTs, by rw [hnew], ?_⟩
        simp [insertRow]
    · show List.Pairwise (fun a b => ¬ rowGe a b)
        (db.rows ++ [{ id := db.nextId, title := t, created_at := some db.nextTs }])
      rw [List.pairwise_append]
      refine ⟨hp, by simp, ?_⟩
      intro a ha b hbmem
      rw [List.mem_singleton] at hbmem
      obtain ⟨x, hx, hlt⟩ := hb a ha
      rw [hbmem]
      unfold rowGe tsGe
      rw [hx]
      simp
      omega

/-- Searching by id commutes with the title-rewriting map of the UPDATE
statement, because the rewrite preserves ids. -/
theorem findRow_map_update : ∀ (rows : List Row) (i : Nat) (title : String),
    findRow (rows.map (fun x => if x.id == i then { x with title := title } else x)) i =
      (findRow rows i).map (fun x => if x.id == i then { x with title := title } else x)
  | [], _, _ => rfl
  | r :: rs, i, title => by
    by_cases h : (r.id == i) = true
    · have hf : (if r.id == i then { r with title := title } else r) =
          { r with title := title } := if_pos h
      rw [findRow, findRow, List.map_cons, hf]
      simp only [List.find?_cons, h, Option.map_some']
      simp
    · have hf : (if r.id == i then { r with title := title } else r) = r := if_neg h
      have hfalse : (r.id == i) = false := by simpa using h
      rw [findRow, findRow, List.map_cons, hf]
      simp only [List.find?_cons, hfalse]
      exact findRow_map_update rs i title

/-- Claim C7: creating an item with any title on a store whose next SERIAL
id is fresh yields 201 with an item carrying exactly the supplied title
and a non-empty creation timestamp, and fetching that item by the returned
id yields 200 with a body equal to the creation body. -/
theorem c7_create_then_get (db : DBState) (title : String)
    (hfresh : ∀ r ∈ db.rows, r.id ≠ db.nextId) :
    ∃ db' item, create_item true db title = .ok (201, db', item) ∧
      item.title = title ∧
      item.created_at ≠ "" ∧
      get_item true db' item.id = .ok (200, item) := by
  refine ⟨insertRow db title,
    rowToItem { id := db.nextId, title := title, created_at := some db.nextTs },
    rfl, rfl, ?_, ?_⟩
  · show isoformat db.nextTs ≠ ""
    exact isoformat_ne_empty db.nextTs
  · have h1 : db.rows.find? (fun r => r.id == db.nextId) = none := by
      rw [List.find?_eq_none]
      intro x hx
      simp [hfresh x hx]
    have hfind : findRow (insertRow db title).rows db.nextId =
        some { id := db.nextId, title := title, created_at := some db.nextTs } := by
      show List.find? (fun r => r.id == db.nextId)
        (db.rows ++ [{ id := db.nextId, title := title, created_at := some db.nextTs }]) =
        some { id := db.nextId, title := title, created_at := some db.nextTs }
      rw [List.find?_append, h1]
      simp
    have hg : get_item true (insertRow db title) db.nextId =
        (match findRow (insertRow db title).rows db.nextId with
         | none => Except.error { status := 404, detail := "Item not found" }
         | some r => Except.ok (200, rowToItem r)) := rfl
    show get_item true (insertRow db title) db.nextId = _
    rw [hg, hfind]

/-- Claim C7 witness on the fresh store with the spec's concrete title. -/
theorem c7_create_then_get_witness :
    ∃ db' item, create_item true db0 "buy milk" = .ok (201, db', item) ∧
      item.title = "buy milk" ∧
      item.created_at ≠ "" ∧
      get_item true db' item.id = .ok (200, item) :=
  c7_create_then_get db0 "buy milk" (by simp [db0])

/-- Claim C8: listing returns a permutation of the stored rows sorted by
creation time descending (serialized), and after N inserts on a fresh
store it returns exactly those N items newest-first (the reverse of
insertion order, whose titles are the inserted titles in order). -/
theorem c8_list_ordering (db : DBState) (titles : List String) :
    (∃ l : List Row, get_items true db = .ok (200, l.map rowToItem) ∧
        l.Perm db.rows ∧ List.Sorted rowGe l) ∧
    (get_items true (applyInserts db0 titles) =
        .ok (200, (applyInserts db0 titles).rows.reverse.map rowToItem) ∧
      (applyInserts db0 titles).rows.map Row.title = titles) := by
  constructor
  · exact ⟨orderByCreatedDesc db.rows, rfl, List.perm_insertionSort rowGe db.rows,
      List.sorted_insertionSort rowGe db.rows⟩
  · have hasc := applyInserts_asc titles db0 (by simp [db0]) (by simp [db0])
    have hsort := sort_of_ascending _ hasc.2
    constructor
    · show Except.ok (200, (orderByCreatedDesc (applyInserts db0 titles).rows).map rowToItem) = _
      rw [hsort]
    · rw [applyInserts_titles]
      simp [db0]

/-- Claim C9: orchestrator credentials resolve in-cluster first and the
local file second with the first success winning; no credentials yields
503; a permission-denied create yields 403; any other orchestrator error
yields 500; success yields 200 with the object's name
`test-pod-<unix-seconds>`, the fixed namespace `todolist` and the assigned
uid, and the created manifest carries restart policy `Never`. -/
theorem c9_test_pod (b : Bool) (now st : Nat) (uid reason body msg : String)
    (out : CreatePodOutcome) :
    get_k8s_client true b = some K8sClientSrc.incluster ∧
    get_k8s_client false true = some K8sClientSrc.kubeconfig ∧
    get_k8s_client false false = none ∧
    create_test_pod false false now out =
      .error
        { status := 503,
          detail := "Kubernetes client not available. Make sure the pod has proper ServiceAccount permissions." } ∧
    create_test_pod true b now (.success uid) =
      .ok (200, { pod_name := "test-pod-" ++ toString now, namespc := "todolist", pod_uid := uid }) ∧
    create_test_pod false true now (.success uid) =
      .ok (200, { pod_name := "test-pod-" ++ toString now, namespc := "todolist", pod_uid := uid }) ∧
    create_test_pod true b now (.apiError 403 reason body) =
      .error
        { status := 403,
          detail := "Permission denied. ServiceAccount needs pod create permission in namespace todolist. Check Role and RoleBinding." } ∧
    (st ≠ 403 → create_test_pod true b now (.apiError st reason body) =
      .error
        { status := 500, detail := "Error creating pod: " ++ reason ++ " - " ++ body }) ∧
    create_test_pod true b now (.otherError msg) =
      .error { status := 500, detail := "Unexpected error: " ++ msg } ∧
    (podManifest now).restartPolicy = "Never" ∧
    (podManifest now).namespc = "todolist" ∧
    (podManifest now).name = "test-pod-" ++ toString now := by
  refine ⟨rfl, rfl, rfl, rfl, rfl, rfl, rfl, ?_, rfl, rfl, rfl, rfl⟩
  intro hst
  have hb : (st == 403) = false := by simpa using hst
  have he : create_test_pod true b now (.apiError st reason body) =
      (if st == 403 then
        Except.error
          { status := 403,
            detail := "Permission denied. ServiceAccount needs pod create permission in namespace todolist. Check Role and RoleBinding." }
       else
        Except.error
          { status := 500,
            detail := "Error creating pod: " ++ reason ++ " - " ++ body }) := rfl
  rw [he]
  simp only [hb, Bool.false_eq_true, if_false]

/-- Claim C9 witness: a non-403 ApiException at concrete inputs maps to a
500 response. -/
theorem c9_test_pod_witness :
    (500 : Nat) ≠ 403 ∧
    create_test_pod true true 7 (.apiError 500 "Forbidden" "rbac") =
      .error { status := 500, detail := "Error creating pod: " ++ "Forbidden" ++ " - " ++ "rbac" } :=
  ⟨by decide,
   (c9_test_pod true 7 500 "u" "Forbidden" "rbac" "m" (.success "u")).2.2.2.2.2.2.2.1 (by decide)⟩

/-- Claim C10: a stored row whose created_at is NULL is serialized with
`created_at = ""` rather than failing: the shared serializer maps NULL to
the empty string, the list endpoint returns such a row among its 200
items, the get endpoint returns it with 200, and the update endpoint
returns 200 with an empty created_at, so a returned item's created_at is
not guaranteed non-empty. -/
theorem c10_null_created_at (db : DBState) (i : Nat) (r : Row) (title : String)
    (hnull : r.created_at = none) :
    (rowToItem r).created_at = "" ∧
    (r ∈ db.rows → ∃ items, get_items true db = .ok (200, items) ∧ rowToItem r ∈ items) ∧
    (findRow db.rows i = some r → get_item true db i = .ok (200, rowToItem r)) ∧
    (findRow db.rows i = some r →
      ∃ db' item, update_item true db i title = .ok (200, db', item) ∧
        item.created_at = "" ∧ item.title = title) := by
  refine ⟨by simp [rowToItem, hnull], ?_, ?_, ?_⟩
  · intro hr
    refine ⟨(orderByCreatedDesc db.rows).map rowToItem, rfl, ?_⟩
    exact List.mem_map_of_mem rowToItem
      ((List.perm_insertionSort rowGe db.rows).mem_iff.mpr hr)
  · intro hfind
    have hg : get_item true db i =
        (match findRow db.rows i with
         | none => Except.error { status := 404, detail := "Item not found" }
         | some x => Except.ok (200, rowToItem x)) := rfl
    rw [hg, hfind]
  · intro hfind
    have hfind' : List.find? (fun x => x.id == i) db.rows = some r := hfind
    have hfr := List.find?_some hfind'
    refine ⟨{ db with
        rows := db.rows.map (fun x => if x.id == i then { x with title := title } else x) },
      rowToItem { r with title := title }, ?_, by simp [rowToItem, hnull], rfl⟩
    have hupd : update_item true db i title =
        (match findRow (db.rows.map
            (fun x => if x.id == i then { x with title := title } else x)) i with
         | none => Except.error { status := 404, detail := "Item not found" }
         | some x =>
           Except.ok
             (200,
              { db with
                rows := db.rows.map
                  (fun x => if x.id == i then { x with title := title } else x) },
              rowToItem x)) := rfl
    rw [hupd, findRow_map_update db.rows i title, hfind]
    have hf : (if r.id == i then { r with title := title } else r) =
        { r with title := title } := if_pos hfr
    rw [Option.map_some', hf]

/-- Claim C10 witness on a one-row store whose row has a NULL timestamp. -/
theorem c10_null_created_at_witness :
    (rowToItem { id := 1, title := "a", created_at := none }).created_at = "" ∧
    ({ id := 1, title := "a", created_at := none } ∈
        (DBState.mk [{ id := 1, title := "a", created_at := none }] 2 5).rows →
      ∃ items,
        get_items true (DBState.mk [{ id := 1, title := "a", created_at := none }] 2 5) =
          .ok (200, items) ∧
        rowToItem { id := 1, title := "a", created_at := none } ∈ items) ∧
    (findRow (DBState.mk [{ id := 1, title := "a", created_at := none }] 2 5).rows 1 =
        some { id := 1, title := "a", created_at := none } →
      get_item true (DBState.mk [{ id := 1, title := "a", created_at := none }] 2 5) 1 =
        .ok (200, rowToItem { id := 1, title := "a", created_at := none })) ∧
    (findRow (DBState.mk [{ id := 1, title := "a", created_at := none }] 2 5).rows 1 =
        some { id := 1, title := "a", created_at := none } →
      ∃ db' item,
        update_item true (DBState.mk [{ id := 1, title := "a", created_at := none }] 2 5) 1 "b" =
          .ok (200, db', item) ∧
        item.created_at = "" ∧ item.title = "b") :=
  c10_null_created_at (DBState.mk [{ id := 1, title := "a", created_at := none }] 2 5)
    1 { id := 1, title := "a", created_at := none } "b" rfl
